import Mathlib

/-!
Verification of the MODEMENT mix engine.

This file is a shallow embedding of the final version of `app/api/mix/route.ts`
(the deterministic selection / ranking / explanation core), together with
theorems checking the specification's testable properties against it.

Modelling conventions:
* JavaScript 32-bit integer bit operations (`^`, `<<`, `>>>`, `Math.imul`,
  `>>> 0`) are modelled on `Nat` with explicit `% 2^32` where overflow matters.
* JavaScript `Set<string>` objects (`seen`, `globalSeen`) are modelled as
  `List String` threaded through the computation; only `has`/`add` are used.
* Scores are JavaScript numbers; every value produced by the scoring code is a
  small multiple of 0.5, exactly representable in a double, so scores are
  modelled as `ℚ`.
* `Array.prototype.sort` with comparator `(a, b) => b.score - a.score` is the
  ECMAScript-mandated stable sort, i.e. a stable descending sort by score; it
  is modelled by the stable `List.mergeSort` with `le a b := b.score ≤ a.score`.
* The oEmbed artwork enrichment is an external collaborator (spec §5/§6): it
  cannot change item ids, order, titles or reasons, and is not modelled.
  Output `name`/`artist` are modelled by their catalog fallback values.
* Spec vocabulary ↔ code vocabulary: `favor_new`/`favor_familiar` are the
  code's `more_new`/`more_familiar`; engine `primary`/`baseline` are the
  code's `my_engine`/`spotify_ai`.
-/

/-- `type TimeBucket = "morning" | "midday" | "evening" | "late_night"`. -/
inductive TimeBucket
  | morning
  | midday
  | evening
  | late_night
deriving DecidableEq, Repr

/-- `type Tweak = "more_new" | "more_familiar" | "no_repeats" | "none"`. -/
inductive Tweak
  | more_new
  | more_familiar
  | no_repeats
  | none
deriving DecidableEq, Repr

/-- `type EngineMode = "my_engine" | "spotify_ai"` (spec: primary | baseline). -/
inductive EngineMode
  | my_engine
  | spotify_ai
deriving DecidableEq, Repr

/-- `type Situation` (final version, seven values). -/
inductive Situation
  | working_out
  | working
  | studying
  | dinner
  | party
  | chill
  | auto
deriving DecidableEq, Repr

/-- `focus_noise: "low" | "medium" | "high"`. -/
inductive FocusNoise
  | low
  | medium
  | high
deriving DecidableEq, Repr

/-- The string value of a `TimeBucket` as it appears in the code. -/
def bucketStr : TimeBucket → String
  | .morning => "morning"
  | .midday => "midday"
  | .evening => "evening"
  | .late_night => "late_night"

/-- The string value of a `Tweak` as it appears in the code. -/
def tweakStr : Tweak → String
  | .more_new => "more_new"
  | .more_familiar => "more_familiar"
  | .no_repeats => "no_repeats"
  | .none => "none"

/-- The string value of an `EngineMode` as it appears in the code. -/
def engineStr : EngineMode → String
  | .my_engine => "my_engine"
  | .spotify_ai => "spotify_ai"

/-- The string value of a `Situation` as it appears in the code. -/
def situationStr : Situation → String
  | .working_out => "working_out"
  | .working => "working"
  | .studying => "studying"
  | .dinner => "dinner"
  | .party => "party"
  | .chill => "chill"
  | .auto => "auto"

/-- The `profile` component of `type MockTrack`. -/
structure TrackProfile where
  genre : String
  era : String
  vibes : List String
  hook : String
  focus_noise : FocusNoise
  bpm : Nat
  energy : Nat
  valence : Nat
  decadeTag : String
  sonicTag : String
deriving DecidableEq, Repr

/-- `type MockTrack` from the route. -/
structure MockTrack where
  id : String
  name : String
  artist : String
  tags : List String
  profile : TrackProfile
deriving DecidableEq, Repr

/-- `const MOCK_TRACKS: MockTrack[]` — the 24-item catalog of the final version. -/
def MOCK_TRACKS : List MockTrack := [
  { id := "0q6LuUqGLUiCPP1cbdwFs3", name := "On Melancholy Hill", artist := "Gorillaz",
    tags := ["focus", "throwback"],
    profile :=
      { genre := "alt pop", era := "late 2000s", vibes := ["clean", "melodic", "bright"],
        hook := "clean melodic groove", focus_noise := .low, bpm := 118, energy := 55, valence := 60,
        decadeTag := "2000s", sonicTag := "bright synths" } },
  { id := "7w87IxuO7BDcJ3YUqCyMTT", name := "Pumped Up Kicks", artist := "Foster The People",
    tags := ["reset", "throwback"],
    profile :=
      { genre := "indie pop", era := "early 2010s", vibes := ["catchy", "nostalgic", "smooth"],
        hook := "whistled melody", focus_noise := .low, bpm := 128, energy := 62, valence := 58,
        decadeTag := "2010s", sonicTag := "whistled hook" } },
  { id := "60ZGteAEtPCnGE6zevgUcd", name := "Mountain Sound", artist := "Of Monsters and Men",
    tags := ["reset", "focus"],
    profile :=
      { genre := "indie folk", era := "early 2010s", vibes := ["bright", "organic", "warm"],
        hook := "anthemic stomp", focus_noise := .medium, bpm := 132, energy := 70, valence := 72,
        decadeTag := "2010s", sonicTag := "stomping drums" } },
  { id := "2ihCaVdNZmnHZWt0fvAM7B", name := "Little Talks", artist := "Of Monsters and Men",
    tags := ["energy", "throwback"],
    profile :=
      { genre := "indie folk", era := "early 2010s", vibes := ["anthemic", "sing-along", "uplifting"],
        hook := "call-and-response vocals", focus_noise := .high, bpm := 108, energy := 78, valence := 65,
        decadeTag := "2010s", sonicTag := "brass accents" } },
  { id := "6K4t31amVTZDgR3sKmwUJJ", name := "Bloom", artist := "The Paper Kites",
    tags := ["focus", "reset"],
    profile :=
      { genre := "indie folk", era := "early 2010s", vibes := ["delicate", "gentle", "warm"],
        hook := "fingerpicked guitar", focus_noise := .low, bpm := 92, energy := 35, valence := 55,
        decadeTag := "2010s", sonicTag := "fingerpicked guitar" } },
  { id := "09019ss66clxe59SgrUD7j", name := "Budapest", artist := "George Ezra",
    tags := ["reset"],
    profile :=
      { genre := "indie folk", era := "mid 2010s", vibes := ["warm", "soulful", "easygoing"],
        hook := "deep baritone vocals", focus_noise := .low, bpm := 128, energy := 58, valence := 68,
        decadeTag := "2010s", sonicTag := "warm guitar" } },
  { id := "5Hroj5K7vLpIG4FNCRIjbP", name := "Best Day Of My Life", artist := "American Authors",
    tags := ["energy", "throwback"],
    profile :=
      { genre := "indie pop", era := "early 2010s", vibes := ["joyful", "anthemic", "upbeat"],
        hook := "hand-clap beat", focus_noise := .medium, bpm := 92, energy := 82, valence := 88,
        decadeTag := "2010s", sonicTag := "hand claps" } },
  { id := "6PwjJ58I4t7Mae9xfZ9l9v", name := "Somebody Told Me", artist := "The Killers",
    tags := ["energy", "ramp"],
    profile :=
      { genre := "indie rock", era := "mid 2000s", vibes := ["driving", "punchy", "tight"],
        hook := "synth bassline", focus_noise := .medium, bpm := 140, energy := 85, valence := 60,
        decadeTag := "2000s", sonicTag := "synth bass" } },
  { id := "3AJwUDP919kvQ9QcozQPxg", name := "Mr. Brightside", artist := "The Killers",
    tags := ["energy", "throwback"],
    profile :=
      { genre := "indie rock", era := "mid 2000s", vibes := ["anthemic", "driving", "classic"],
        hook := "guitar surge", focus_noise := .medium, bpm := 148, energy := 88, valence := 55,
        decadeTag := "2000s", sonicTag := "guitar surge" } },
  { id := "3FtYbEfBqAlGO46NUDQSAt", name := "Electric Feel", artist := "MGMT",
    tags := ["ramp", "throwback"],
    profile :=
      { genre := "psychedelic pop", era := "late 2000s", vibes := ["groovy", "colorful", "playful"],
        hook := "funky bassline", focus_noise := .medium, bpm := 108, energy := 72, valence := 75,
        decadeTag := "2000s", sonicTag := "funky bass" } },
  { id := "1jJci4qxiYcOHhQR247rEU", name := "Kids", artist := "MGMT",
    tags := ["energy", "throwback"],
    profile :=
      { genre := "psychedelic pop", era := "late 2000s", vibes := ["nostalgic", "synth-heavy", "anthemic"],
        hook := "synth lead melody", focus_noise := .medium, bpm := 124, energy := 80, valence := 68,
        decadeTag := "2010s", sonicTag := "synth lead" } },
  { id := "6Z8R6UsFuGXGtiIxiD8ISb", name := "Safe and Sound", artist := "Capital Cities",
    tags := ["energy", "ramp"],
    profile :=
      { genre := "indie pop", era := "early 2010s", vibes := ["bright", "feel-good", "catchy"],
        hook := "horn stabs", focus_noise := .medium, bpm := 108, energy := 76, valence := 82,
        decadeTag := "2010s", sonicTag := "brass hits" } },
  { id := "1eyzqe2QqGZUmfcPZtrIyt", name := "Midnight City", artist := "M83",
    tags := ["energy", "ramp"],
    profile :=
      { genre := "synth pop", era := "early 2010s", vibes := ["epic", "shimmering", "driving"],
        hook := "saxophone solo", focus_noise := .medium, bpm := 105, energy := 82, valence := 68,
        decadeTag := "2010s", sonicTag := "synth epic" } },
  { id := "0GO8y8jQk1PkHzS31d699N", name := "Tongue Tied", artist := "Grouplove",
    tags := ["energy", "ramp"],
    profile :=
      { genre := "indie rock", era := "early 2010s", vibes := ["chaotic", "fun", "raw"],
        hook := "shout-along chorus", focus_noise := .high, bpm := 112, energy := 86, valence := 78,
        decadeTag := "2010s", sonicTag := "shouted vocals" } },
  { id := "01iyCAUm8EvOFqVWYJ3dVX", name := "Take a Walk", artist := "Passion Pit",
    tags := ["energy", "ramp"],
    profile :=
      { genre := "indie pop", era := "early 2010s", vibes := ["bright", "layered", "urgent"],
        hook := "cascading synths", focus_noise := .medium, bpm := 128, energy := 80, valence := 58,
        decadeTag := "2010s", sonicTag := "layered synths" } },
  { id := "4prEPl61C8qZpeo3IkYSMl", name := "Sleepyhead", artist := "Passion Pit",
    tags := ["energy"],
    profile :=
      { genre := "indie pop", era := "late 2000s", vibes := ["glitchy", "bouncy", "frenetic"],
        hook := "chopped vocal sample", focus_noise := .high, bpm := 130, energy := 84, valence := 65,
        decadeTag := "2000s", sonicTag := "vocal chop" } },
  { id := "0DwClY2t9YAWHBROMIgrXb", name := "Ho Hey", artist := "The Lumineers",
    tags := ["reset", "throwback"],
    profile :=
      { genre := "indie folk", era := "early 2010s", vibes := ["warm", "simple", "organic"],
        hook := "stomp-clap rhythm", focus_noise := .low, bpm := 82, energy := 68, valence := 75,
        decadeTag := "2010s", sonicTag := "foot stomps" } },
  { id := "14AyWf6y7KlWWLfAjdKMKI", name := "Ophelia", artist := "The Lumineers",
    tags := ["reset"],
    profile :=
      { genre := "indie folk", era := "mid 2010s", vibes := ["anthemic", "organic", "uplifting"],
        hook := "stomping beat", focus_noise := .medium, bpm := 96, energy := 70, valence := 68,
        decadeTag := "2010s", sonicTag := "stomping rhythm" } },
  { id := "2QjOHCTQ1Jl3zawyYOpxh6", name := "Sweater Weather", artist := "The Neighbourhood",
    tags := ["focus", "evening"],
    profile :=
      { genre := "alt rock", era := "early 2010s", vibes := ["moody", "dreamy", "smooth"],
        hook := "reverb guitar line", focus_noise := .low, bpm := 90, energy := 48, valence := 52,
        decadeTag := "2010s", sonicTag := "reverb guitar" } },
  { id := "1YLJVmuzeM2YSUkCCaTNUB", name := "Dog Days Are Over", artist := "Florence + The Machine",
    tags := ["energy"],
    profile :=
      { genre := "indie rock", era := "late 2000s", vibes := ["powerful", "triumphant", "raw"],
        hook := "explosive harp crescendo", focus_noise := .high, bpm := 146, energy := 92, valence := 62,
        decadeTag := "2000s", sonicTag := "harp glissando" } },
  { id := "4dyx5SzxPPaD8xQIid5Wjj", name := "Young Folks", artist := "Peter Bjorn and John",
    tags := ["focus", "throwback"],
    profile :=
      { genre := "indie pop", era := "mid 2000s", vibes := ["playful", "bright", "whistled"],
        hook := "iconic whistle riff", focus_noise := .low, bpm := 110, energy := 60, valence := 70,
        decadeTag := "2010s", sonicTag := "whistle melody" } },
  { id := "4kbj5MwxO1bq9wjT5g9HaA", name := "Shut Up and Dance", artist := "WALK THE MOON",
    tags := ["energy", "ramp"],
    profile :=
      { genre := "indie pop", era := "mid 2010s", vibes := ["upbeat", "funky", "danceable"],
        hook := "driving bass groove", focus_noise := .high, bpm := 128, energy := 89, valence := 85,
        decadeTag := "2010s", sonicTag := "funky bass" } },
  { id := "3e0yTP5trHBBVvV32jwXqF", name := "Anna Sun", artist := "WALK THE MOON",
    tags := ["energy", "ramp"],
    profile :=
      { genre := "indie rock", era := "early 2010s", vibes := ["raw", "explosive", "anthemic"],
        hook := "shouted vocals", focus_noise := .high, bpm := 116, energy := 87, valence := 72,
        decadeTag := "2010s", sonicTag := "raw vocals" } },
  { id := "1UqhkbzB1kuFwt2iy4h29Q", name := "Cough Syrup", artist := "Young the Giant",
    tags := ["reset", "focus"],
    profile :=
      { genre := "indie rock", era := "early 2010s", vibes := ["building", "emotional", "anthemic"],
        hook := "soaring chorus", focus_noise := .medium, bpm := 128, energy := 74, valence := 55,
        decadeTag := "2010s", sonicTag := "building guitar" } }]

/-- The characters stripped by JavaScript `trim()` and matched by `\s`
(the two sets coincide): TAB, LF, VT, FF, CR, SP, NBSP, OGHAM SPACE MARK,
U+2000..U+200A, LINE/PARAGRAPH SEPARATOR, NARROW NBSP, MATHEMATICAL SPACE,
IDEOGRAPHIC SPACE and the BOM. -/
def jsIsSpace (c : Char) : Bool :=
  c = ' ' || c = '\t' || c = '\n' || c = '\r' || c = Char.ofNat 11 || c = Char.ofNat 12 ||
  c = Char.ofNat 160 || c = Char.ofNat 0x1680 ||
  (Char.ofNat 0x2000 ≤ c && c ≤ Char.ofNat 0x200A) ||
  c = Char.ofNat 0x2028 || c = Char.ofNat 0x2029 || c = Char.ofNat 0x202F ||
  c = Char.ofNat 0x205F || c = Char.ofNat 0x3000 || c = Char.ofNat 0xFEFF

/-- JavaScript `String.prototype.trim`. -/
def jsTrim (s : String) : String :=
  String.mk (((s.data.dropWhile jsIsSpace).reverse.dropWhile jsIsSpace).reverse)

/-- JavaScript `String.prototype.toLowerCase` (ASCII range, which covers all data here). -/
def jsToLower (s : String) : String :=
  String.mk (s.data.map Char.toLower)

/-- `[\s-]` — the character class collapsed to `_` by `normalizeSituation`. -/
def isSpaceOrHyphen (c : Char) : Bool :=
  jsIsSpace c || c = '-'

/-- `replace(/[\s-]+/g, "_")`: each maximal run of whitespace/hyphens becomes one `_`.
`inRun` records whether the previous character belonged to such a run. -/
def collapseRuns (inRun : Bool) : List Char → List Char
  | [] => []
  | c :: rest =>
    if isSpaceOrHyphen c then
      if inRun then collapseRuns true rest
      else '_' :: collapseRuns true rest
    else c :: collapseRuns false rest

/-- `function normalizeSituation(raw)`: trim, lowercase, collapse `[\s-]+` to `_`. -/
def normalizeSituation (raw : String) : String :=
  String.mk (collapseRuns false (jsToLower (jsTrim raw)).data)

/-- The own properties of the `aliasMap` object literal in `getSituation`.
JavaScript property access `aliasMap[normalized]` also reaches the inherited
`Object.prototype` members; that prototype chain is modelled on top of this
table by `getSituationJs`. -/
def situationAlias : String → Option Situation
  | "workout" => some .working_out
  | "workingout" => some .working_out
  | "working_out" => some .working_out
  | "work_out" => some .working_out
  | "gym" => some .working_out
  | "exercise" => some .working_out
  | "work" => some .working
  | "working" => some .working
  | "office" => some .working
  | "study" => some .studying
  | "studying" => some .studying
  | "focus" => some .studying
  | "homework" => some .studying
  | "party" => some .party
  | "dinner" => some .dinner
  | "hangout" => some .dinner
  | "hanging_out" => some .dinner
  | "chill" => some .chill
  | "late_night" => some .chill
  | "auto" => some .auto
  | "" => some .auto
  | _ => Option.none

/-- `function getSituation(req)` restricted to its well-typed outcomes, as the
rest of the route assumes (`situation : Situation`). The raw query parameter is
passed as a string, "" when absent. Faithful to `aliasMap[normalized] || "auto"`
exactly when the normalized token does not name an `Object.prototype` member;
`getSituationJs` below is the unrestricted JavaScript semantics and
`getSituationJs_agrees` states the agreement. -/
def getSituation (raw : String) : Situation :=
  (situationAlias (normalizeSituation raw)).getD .auto

/-- The property names of `Object.prototype`: an object literal such as
`aliasMap` inherits these through its prototype chain, so `aliasMap[key]`
for one of these keys yields the inherited member — a truthy function, or
`Object.prototype` itself for `__proto__` — instead of `undefined`. -/
def objectProtoKeys : List String :=
  ["constructor", "hasOwnProperty", "isPrototypeOf", "propertyIsEnumerable",
   "toLocaleString", "toString", "valueOf", "__proto__",
   "__defineGetter__", "__defineSetter__", "__lookupGetter__", "__lookupSetter__"]

/-- The runtime value of `resolved = aliasMap[normalized] || "auto"`: either a
proper `Situation` string, or an inherited `Object.prototype` member that
leaked through the lookup (truthy, so the `|| "auto"` default does not apply
and `resolved` is not a `Situation` at all, despite the
`Record<string, Situation>` annotation). -/
inductive ResolvedSituation
  | situation (s : Situation)
  | protoLeak
deriving DecidableEq, Repr

/-- `function getSituation(req)` with faithful JavaScript object semantics:
own alias-map properties first, then the inherited `Object.prototype`
members, then the `|| "auto"` default (which only fires on `undefined`). -/
def getSituationJs (raw : String) : ResolvedSituation :=
  let normalized := normalizeSituation raw
  match situationAlias normalized with
  | some s => ResolvedSituation.situation s
  | Option.none =>
    if normalized ∈ objectProtoKeys then ResolvedSituation.protoLeak
    else ResolvedSituation.situation Situation.auto

/-- `function getEngine(req)`: anything other than `"spotify_ai"` is `my_engine`. -/
def getEngine (raw : String) : EngineMode :=
  if jsTrim raw = "spotify_ai" then .spotify_ai else .my_engine

/-- `function getTweak(req)`: allow-list with neutral default `none`. -/
def getTweak (raw : String) : Tweak :=
  if jsTrim raw = "more_new" then .more_new
  else if jsTrim raw = "more_familiar" then .more_familiar
  else if jsTrim raw = "no_repeats" then .no_repeats
  else .none

/-- Decimal digit value of an ASCII digit character. -/
def digitVal (c : Char) : Nat := c.toNat - 48

/-- The regular expression `^([01]\d|2[0-3]):([0-5]\d)$` applied to a 5-character
candidate, returning `(hours, minutes)` on a match. -/
def matchClock (cs : List Char) : Option (Nat × Nat) :=
  match cs with
  | [h1, h2, sep, m1, m2] =>
    if sep = ':' ∧
       ((h1 = '0' ∨ h1 = '1') ∧ h2.isDigit ∨ (h1 = '2' ∧ (h2 = '0' ∨ h2 = '1' ∨ h2 = '2' ∨ h2 = '3'))) ∧
       (m1 = '0' ∨ m1 = '1' ∨ m1 = '2' ∨ m1 = '3' ∨ m1 = '4' ∨ m1 = '5') ∧ m2.isDigit
    then some (digitVal h1 * 10 + digitVal h2, digitVal m1 * 10 + digitVal m2)
    else Option.none
  | _ => Option.none

/-- `function parseTimeOverride(time)`: `!time` (absent or empty) and any string whose
trimmed form fails `^([01]\d|2[0-3]):([0-5]\d)$` yield `null`. -/
def parseTimeOverride (time : Option String) : Option (Nat × Nat) :=
  match time with
  | Option.none => Option.none
  | some s => if s = "" then Option.none else matchClock (jsTrim s).data

/-- `function getTimeBucketFromMinutes(mins)`. -/
def getTimeBucketFromMinutes (mins : Nat) : TimeBucket :=
  let MORNING := 7 * 60
  let MIDDAY := 12 * 60
  let EVENING := 17 * 60
  let LATE := 22 * 60
  let TWO_AM := 2 * 60
  if MORNING ≤ mins ∧ mins < MIDDAY then .morning
  else if MIDDAY ≤ mins ∧ mins < EVENING then .midday
  else if EVENING ≤ mins ∧ mins < LATE then .evening
  else if LATE ≤ mins ∨ mins < TWO_AM then .late_night
  else .late_night

/-- `function makeTrackUrl(id)`. -/
def makeTrackUrl (id : String) : String :=
  "https://open.spotify.com/track/" ++ id

/-- `function stableHash(s)`: FNV-1a over UTF-16 code units with `Math.imul`
(32-bit wrapping multiply) and a final `>>> 0`. All inputs here are ASCII, so
`charCodeAt` is `Char.toNat`. -/
def stableHash (s : String) : Nat :=
  s.data.foldl (fun h c => ((h ^^^ c.toNat) * 16777619) % 4294967296) 2166136261

/-- One step of the `xorshift32` generator inside `seededShuffle`; JS `<<` coerces
to 32 bits (modelled by `% 2^32`), `>>>` is an unsigned shift. -/
def xorshift32 (x : Nat) : Nat :=
  let x1 := (x ^^^ (x <<< 13)) % 4294967296
  let x2 := x1 ^^^ (x1 >>> 17)
  (x2 ^^^ (x2 <<< 5)) % 4294967296

/-- Swap positions `i` and `j` of a list (`[a[i], a[j]] = [a[j], a[i]]`);
identity when out of bounds (never happens in `seededShuffle`). -/
def listSwap (l : List α) (i j : Nat) : List α :=
  match l[i]?, l[j]? with
  | some a, some b => (l.set i b).set j a
  | _, _ => l

/-- The Fisher–Yates loop of `seededShuffle`, counting `i` down to 1.
`j = Math.floor(rand() * (i + 1))` is exact in double precision here
(`x < 2^32`, `i + 1 ≤ 24`, so the product has < 53 mantissa bits), hence
equals `x * (i + 1) / 2^32` in integer division. -/
def shuffleLoop (a : List α) (x : Nat) (i : Nat) : List α :=
  match i with
  | 0 => a
  | i' + 1 =>
    let x' := xorshift32 x
    let j := x' * (i' + 2) / 4294967296
    shuffleLoop (listSwap a (i' + 1) j) x' i'

/-- `function seededShuffle(arr, seed)`; `seed >>> 0` is `% 2^32`. -/
def seededShuffle (l : List α) (seed : Nat) : List α :=
  shuffleLoop l (seed % 4294967296) (l.length - 1)

/-- Does the character list `needle` start the character list `hay`? -/
def seqStarts [BEq α] : List α → List α → Bool
  | [], _ => true
  | _ :: _, [] => false
  | a :: as, b :: bs => a == b && seqStarts as bs

/-- Does `needle` occur contiguously inside `hay`? -/
def seqHas [BEq α] (needle : List α) : List α → Bool
  | [] => seqStarts needle []
  | b :: bs => seqStarts needle (b :: bs) || seqHas needle bs

/-- JavaScript `hay.includes(needle)` for strings. -/
def strIncludes (hay needle : String) : Bool :=
  seqHas needle.data hay.data

/-- `str.charAt(0).toUpperCase() + str.slice(1)` (ASCII data). -/
def capFirst (s : String) : String :=
  match s.data with
  | [] => ""
  | c :: cs => String.mk (c.toUpper :: cs)

/-- `function generateFeatureBasedReason(track, blockTitle)` — the final version's
reason generator; purely feature-based (bpm / energy / valence / sonicTag /
focus_noise), dispatching on the block title. -/
def generateFeatureBasedReason (track : MockTrack) (blockTitle : String) : String :=
  let bpm := track.profile.bpm
  let energy := track.profile.energy
  let valence := track.profile.valence
  let sonicTag := track.profile.sonicTag
  let energyLevel := if energy > 75 then "high-energy" else if energy > 55 then "mid-tempo" else "low-key"
  let mood := if valence > 70 then "upbeat" else if valence > 50 then "mid valence" else "mellower mood"
  if strIncludes blockTitle "PR mode" || strIncludes blockTitle "Hands up" || strIncludes blockTitle "Peak" then
    toString bpm ++ " bpm with " ++ sonicTag ++ ". " ++ capFirst energyLevel ++ " without going full EDM."
  else if strIncludes blockTitle "focus" || strIncludes blockTitle "Deep focus" || strIncludes blockTitle "Low distraction" then
    let lyricNote := if track.profile.focus_noise = .low then "Low lyric density" else "Steady presence"
    lyricNote ++ ", " ++ toString bpm ++ " bpm. Study-safe."
  else if strIncludes blockTitle "Dinner" || strIncludes blockTitle "Background" || strIncludes blockTitle "Conversation" then
    capFirst sonicTag ++ " + " ++ mood ++ ". Dinner table friendly."
  else if strIncludes blockTitle "Warm up" || strIncludes blockTitle "Cool down" || strIncludes blockTitle "reset" then
    toString bpm ++ " bpm, " ++ energyLevel ++ ". " ++ capFirst mood ++ " to shift gears."
  else
    toString bpm ++ " bpm with " ++ sonicTag ++ ". " ++ capFirst energyLevel ++ ", " ++ mood ++ "."

/-- `function getReasonSignal(intent)` (`signalMap[intent] || "Fresh angle"`). -/
def getReasonSignal (intent : String) : String :=
  if intent = "focus" then "Low distraction"
  else if intent = "reset" then "Mood reset"
  else if intent = "energy" then "Energy fit"
  else if intent = "ramp" then "Energy fit"
  else if intent = "throwback" then "Familiar anchor"
  else if intent = "discovery" then "Fresh angle"
  else "Fresh angle"

/-- `function scoreTrack(t, intent, tweak)` — base intent match plus tweak bias. -/
def scoreTrack (t : MockTrack) (intent : String) (tweak : Tweak) : ℚ :=
  let score : ℚ := 0
  let score := if intent ∈ t.tags then score + 6 else score
  let score := if intent = "discovery" then score + 1 else score
  let score :=
    if tweak = Tweak.more_new then
      if "throwback" ∈ t.tags then score + (-2) else score + 2
    else if tweak = Tweak.more_familiar then
      if "throwback" ∈ t.tags then score + 3 else score
    else score
  score

/-- `const SITUATION_BIAS: Record<Situation, Partial<Record<string, number>>>`,
read through JS object access with `|| 0` default. -/
def situationBias : Situation → String → ℚ
  | .auto, _ => 0
  | .working_out, tag =>
    if tag = "energy" then 3 else if tag = "ramp" then 2
    else if tag = "reset" then 1 else if tag = "throwback" then 1 else 0
  | .working, tag =>
    if tag = "focus" then 3 else if tag = "ramp" then 1
    else if tag = "reset" then -2 else 0
  | .studying, tag =>
    if tag = "focus" then 3 else if tag = "ramp" then 1
    else if tag = "reset" then -2 else 0
  | .dinner, tag =>
    if tag = "reset" then 3 else if tag = "throwback" then 1
    else if tag = "focus" then -1 else 0
  | .party, tag =>
    if tag = "energy" then 3 else if tag = "ramp" then 2
    else if tag = "throwback" then 1 else if tag = "reset" then -2 else 0
  | .chill, tag =>
    if tag = "reset" then 3 else if tag = "focus" then 1
    else if tag = "throwback" then 1 else if tag = "energy" then -2 else 0

/-- The `for (const tag of t.tags)` loop inside `pickTracksForIntent`: add
`0.5 × weight` for every tag with a positive situation-bias weight, starting
from the running `score`. -/
def situationTagBias (situation : Situation) (t : MockTrack) (score : ℚ) : ℚ :=
  t.tags.foldl (fun sc tag =>
    let intentBoost := situationBias situation tag
    if 0 < intentBoost then sc + intentBoost * 0.5 else sc) score

/-- The situation-specific fine-tuning on raw attributes inside
`pickTracksForIntent` (spec §4.4 step 4). -/
def situationFineTune (situation : Situation) (t : MockTrack) (score : ℚ) : ℚ :=
  let score :=
    if situation = Situation.studying then
      let score := if t.profile.focus_noise = .low then score + 2 else score
      let score := if t.profile.focus_noise = .high then score - 2 else score
      let score := if t.profile.valence < 40 then score + 1 else score
      if t.profile.bpm < 90 then score + 1 else score
    else score
  let score :=
    if situation = Situation.working_out then
      let score := if t.profile.energy < 70 then score - 1 else score
      let score := if t.profile.bpm < 110 then score - 1 else score
      if t.profile.valence < 50 then score - 1 else score
    else score
  let score :=
    if situation = Situation.party then
      let score := if t.profile.energy < 80 then score - 1 else score
      let score := if t.profile.bpm < 120 then score - 1 else score
      if t.profile.valence < 60 then score - 1 else score
    else score
  let score :=
    if situation = Situation.dinner then
      let score := if t.profile.energy > 60 then score - 1 else score
      let score := if t.profile.bpm > 110 then score - 1 else score
      if t.profile.valence < 50 then score - 1 else score
    else score
  let score :=
    if situation = Situation.chill then
      let score := if t.profile.energy > 60 then score - 1 else score
      if t.profile.bpm > 100 then score - 1 else score
    else score
  score

/-- The per-item score computed inside `pickTracksForIntent`'s `.map`:
`scoreTrack`, then the `globalSeen` duplicate penalty, then (for non-auto
situations) the positive situation-tag bias and the fine-tuning. -/
def trackSelectionScore (t : MockTrack) (intent : String) (tweak : Tweak)
    (situation : Situation) (blockIndex : Nat) (globalSeen : List String) : ℚ :=
  let score := scoreTrack t intent tweak
  let score :=
    if t.id ∈ globalSeen then
      if blockIndex < 3 then score - 1000 else score - 5
    else score
  if situation = Situation.auto then score
  else situationFineTune situation t (situationTagBias situation t score)

/-- `type BlockIntent = { title, subtitle, intent }`. -/
structure BlockIntent where
  title : String
  subtitle : String
  intent : String
deriving DecidableEq, Repr

/-- `const SITUATION_PRESETS` (auto mapped to `[]`, matching the `|| []` guard). -/
def SITUATION_PRESETS : Situation → List BlockIntent
  | .working_out => [
      { title := "Warm up", subtitle := "Ease into movement without rushing", intent := "ramp" },
      { title := "PR mode", subtitle := "Peak intensity for max effort", intent := "energy" },
      { title := "Keep moving", subtitle := "Steady tempo to maintain momentum", intent := "throwback" },
      { title := "Second wind", subtitle := "Fresh energy when you start to fade", intent := "discovery" },
      { title := "Cool down", subtitle := "Bring the intensity back down gradually", intent := "reset" }]
  | .working => [
      { title := "Deep focus", subtitle := "Low distraction for sustained concentration", intent := "focus" },
      { title := "Low distraction", subtitle := "Steady, unobtrusive background energy", intent := "focus" },
      { title := "Steady tempo", subtitle := "Consistent rhythm to keep you grounded", intent := "ramp" },
      { title := "No lyrics bias", subtitle := "Instrumental or minimal vocals", intent := "focus" },
      { title := "Short reset", subtitle := "Brief mental break without losing flow", intent := "reset" }]
  | .studying => [
      { title := "Deep focus", subtitle := "Low distraction for sustained concentration", intent := "focus" },
      { title := "Low distraction", subtitle := "Steady, unobtrusive background energy", intent := "focus" },
      { title := "Steady tempo", subtitle := "Consistent rhythm to keep you grounded", intent := "ramp" },
      { title := "No lyrics bias", subtitle := "Instrumental or minimal vocals", intent := "focus" },
      { title := "Short reset", subtitle := "Brief mental break without losing flow", intent := "reset" }]
  | .dinner => [
      { title := "Dinner table", subtitle := "Conversational, warm background music", intent := "reset" },
      { title := "Background glow", subtitle := "Soft energy that fills the space", intent := "throwback" },
      { title := "Conversation friendly", subtitle := "Won\x27t compete with voices", intent := "reset" },
      { title := "Soft classics", subtitle := "Familiar, comforting picks", intent := "throwback" },
      { title := "After dinner", subtitle := "Easy transition to relaxation", intent := "discovery" }]
  | .party => [
      { title := "Kickoff", subtitle := "Set the tone with immediate energy", intent := "energy" },
      { title := "Hands up", subtitle := "Peak moments that move the room", intent := "energy" },
      { title := "Peak hour", subtitle := "Maximum intensity for the main event", intent := "ramp" },
      { title := "Afterparty", subtitle := "Keep the vibe going without peaking again", intent := "throwback" },
      { title := "Come down", subtitle := "Ease the energy back down", intent := "reset" }]
  | .chill => [
      { title := "Slow lane", subtitle := "Low-key energy to help you settle", intent := "reset" },
      { title := "Late afternoon haze", subtitle := "Warm, drifting sounds", intent := "throwback" },
      { title := "Soft edges", subtitle := "Gentle textures, no hard hits", intent := "focus" },
      { title := "Window seat", subtitle := "Contemplative, introspective mood", intent := "discovery" },
      { title := "Quiet win", subtitle := "Calm satisfaction, no pressure", intent := "reset" }]
  | .auto => []

/-- `function blockPlan(bucket, situation)`: situation presets override the
time-of-day plans; otherwise the per-bucket plans. -/
def blockPlan (bucket : TimeBucket) (situation : Situation) : List BlockIntent :=
  if situation ≠ Situation.auto then SITUATION_PRESETS situation
  else if bucket = TimeBucket.morning then [
    { title := "If you want momentum", subtitle := "Start your day with energy", intent := "energy" },
    { title := "If you need a smooth start", subtitle := "Ease into your morning", intent := "ramp" },
    { title := "If you want deep focus", subtitle := "Lock in early", intent := "focus" },
    { title := "If you want something different", subtitle := "Fresh angle for morning", intent := "discovery" }]
  else if bucket = TimeBucket.midday then [
    { title := "If you want deep focus", subtitle := "Steady tracks for midday work", intent := "focus" },
    { title := "If you need a mental reset", subtitle := "Clear your head", intent := "reset" },
    { title := "If you need a push", subtitle := "Lift your energy", intent := "energy" },
    { title := "If you want something different", subtitle := "Fresh picks for afternoon", intent := "discovery" }]
  else if bucket = TimeBucket.evening then [
    { title := "If you want to unwind", subtitle := "Shift down from your day", intent := "reset" },
    { title := "If you want light focus", subtitle := "Evening concentration", intent := "focus" },
    { title := "If you want to move", subtitle := "Gentle evening energy", intent := "ramp" },
    { title := "If you want something different", subtitle := "Fresh sounds for evening", intent := "discovery" }]
  else [
    { title := "If you want sustained energy", subtitle := "Stay awake and alert", intent := "energy" },
    { title := "If you want to stay sharp", subtitle := "Late-night focus", intent := "focus" },
    { title := "If you want something familiar", subtitle := "Known tracks for tired moments", intent := "throwback" },
    { title := "If you want to wind down", subtitle := "Ease into calmer energy", intent := "reset" }]

/-- `blockPlan` as reached from the raw resolution. For a leaked
`Object.prototype` member, `situation !== "auto"` holds (a function is not the
string `"auto"`), and `SITUATION_PRESETS[situation] || []` is `[]`: the leaked
value coerces to a property key (the function's source string) that names no
preset, so the plan — and hence the response's block list — is empty. -/
def blockPlanJs (bucket : TimeBucket) (r : ResolvedSituation) : List BlockIntent :=
  match r with
  | ResolvedSituation.situation s => blockPlan bucket s
  | ResolvedSituation.protoLeak => []

/-- `function blockWhyNow({bucket, situation})`. -/
def blockWhyNow (bucket : TimeBucket) (situation : Situation) : String :=
  let bucketName : String :=
    match bucket with
    | .morning => "Morning"
    | .midday => "Midday"
    | .evening => "Evening"
    | .late_night => "Late night"
  match situation with
  | .working_out => bucketName ++ " + workout: energy that scales with your effort."
  | .working => bucketName ++ " + work: keep energy up, distraction low."
  | .studying => bucketName ++ " + study: keep energy up, distraction low."
  | .dinner => bucketName ++ " + dinner: background warmth without competing with conversation."
  | .party => bucketName ++ " + party: peak energy to move the room."
  | .chill => bucketName ++ " + chill: ease into low-key, contemplative mood."
  | .auto =>
    match bucket with
    | .morning => "Morning: easing into the day with controlled energy."
    | .midday => "Midday: maintaining focus and momentum."
    | .evening => "Evening: transitioning to lower-pressure mode."
    | .late_night => "Late night: staying alert or winding down on your terms."

/-- `function spotifyAiSubtitle(bucket)`. -/
def spotifyAiSubtitle : TimeBucket → String
  | .morning => "Upbeat mix for your day"
  | .midday => "A blend for your routine"
  | .evening => "Chill picks you might like"
  | .late_night => "Late night vibes"

/-- `function spotifyAiWhyNow(bucket)`. -/
def spotifyAiWhyNow : TimeBucket → String
  | .morning => "Picked based on your listening habits."
  | .midday => "A mix based on your recent activity."
  | .evening => "Selected for your typical evening listening."
  | .late_night => "Recommended from your taste profile."

/-- The greedy main loop of `pickTracksForIntent` (step 3 of spec §4.5):
walk the score-ordered list, stop at 5; with `no_repeats`, skip ids already
in `seen`; record every pick in `seen` and `globalSeen`. -/
def pickLoop (tweak : Tweak) :
    List (MockTrack × ℚ) → List MockTrack → List String → List String →
    List MockTrack × List String × List String
  | [], picked, seen, globalSeen => (picked, seen, globalSeen)
  | item :: rest, picked, seen, globalSeen =>
    if 5 ≤ picked.length then (picked, seen, globalSeen)
    else if tweak = Tweak.no_repeats ∧ item.1.id ∈ seen then
      pickLoop tweak rest picked seen globalSeen
    else
      pickLoop tweak rest (picked ++ [item.1]) (item.1.id :: seen) (item.1.id :: globalSeen)

/-- The backfill loop of `pickTracksForIntent` (step 4 of spec §4.5): relax the
no-repeats constraint, skip only ids already chosen within this block, and add
each backfilled pick to `globalSeen` (but not to `seen`). -/
def backfillLoop :
    List MockTrack → List MockTrack → List String →
    List MockTrack × List String
  | [], picked, globalSeen => (picked, globalSeen)
  | t :: rest, picked, globalSeen =>
    if 5 ≤ picked.length then (picked, globalSeen)
    else if t.id ∈ picked.map MockTrack.id then backfillLoop rest picked globalSeen
    else backfillLoop rest (picked ++ [t]) (t.id :: globalSeen)

/-- The `ordered` list of `pickTracksForIntent`: seeded shuffle of the catalog,
scored, then stable-sorted descending by score (`(a, b) => b.score - a.score`). -/
def orderedFor (intent : String) (tweak : Tweak) (seed : Nat)
    (situation : Situation) (blockIndex : Nat) (globalSeen : List String) :
    List (MockTrack × ℚ) :=
  List.mergeSort
    ((seededShuffle MOCK_TRACKS seed).map
      (fun t => (t, trackSelectionScore t intent tweak situation blockIndex globalSeen)))
    (fun a b => decide (b.2 ≤ a.2))

/-- `function pickTracksForIntent(params)`: returns the picked tracks and the
updated `seen` / `globalSeen` sets (mutable `Set`s in the source). -/
def pickTracksForIntent (intent : String) (tweak : Tweak) (seed : Nat)
    (seen : List String) (situation : Situation) (blockIndex : Nat)
    (globalSeen : List String) :
    List MockTrack × List String × List String :=
  let ordered := orderedFor intent tweak seed situation blockIndex globalSeen
  let r := pickLoop tweak ordered [] seen globalSeen
  if r.1.length < 5 then
    let b := backfillLoop (ordered.map (fun x => x.1)) r.1 r.2.2
    (b.1, r.2.1, b.2)
  else r

/-- Output `type Track` (artwork enrichment is external and not modelled;
`name`/`artist` are the catalog fallbacks). -/
structure Track where
  id : String
  name : String
  artist : String
  reason : String
  reason_signal : Option String
  track_url : String
deriving DecidableEq, Repr

/-- Output `type Block`. -/
structure Block where
  id : String
  title : String
  subtitle : String
  why_now : String
  tracks : List Track
deriving DecidableEq, Repr

/-- The first phase of `buildBlocksWithArtwork`: `plan.map` with the shared
mutable `seen` / `globalSeen` sets, producing `{ blockPlan, intent, picked, idx }`
records; modelled by explicit recursion threading the two sets. -/
def pickBlocks (tweak : Tweak) (seed : Nat) (situation : Situation) :
    List BlockIntent → Nat → List String → List String →
    List (BlockIntent × Nat × List MockTrack)
  | [], _, _, _ => []
  | p :: rest, idx, seen, globalSeen =>
    let blockSeed := seed + idx * 101
    let r := pickTracksForIntent p.intent tweak blockSeed seen situation idx globalSeen
    (p, idx, r.1) :: pickBlocks tweak seed situation rest (idx + 1) r.2.1 r.2.2

/-- The second phase of `buildBlocksWithArtwork`: map each picked record to the
final `Block` (empty reasons and the generic title rotation in `spotify_ai`
mode; feature-based reasons and the plan's own titles otherwise). -/
def finishBlock (engine : EngineMode) (bucket : TimeBucket) (situation : Situation)
    (p : BlockIntent) (idx : Nat) (picked : List MockTrack) : Block :=
  let tracks : List Track := picked.map (fun t =>
    { id := t.id
      name := t.name
      artist := t.artist
      reason := if engine = EngineMode.spotify_ai then "" else generateFeatureBasedReason t p.title
      reason_signal := if engine = EngineMode.spotify_ai then Option.none else some (getReasonSignal p.intent)
      track_url := makeTrackUrl t.id })
  if engine = EngineMode.spotify_ai then
    { id := "block-" ++ toString idx
      title :=
        if idx = 0 then "Made for You"
        else if idx = 1 then "Daily Mix"
        else if idx = 2 then "Vibes"
        else if idx = 3 then "Recommended"
        else "More Like This"
      subtitle := if p.subtitle = "" then spotifyAiSubtitle bucket else p.subtitle
      why_now := spotifyAiWhyNow bucket
      tracks := tracks }
  else
    { id := "block-" ++ toString idx
      title := p.title
      subtitle := p.subtitle
      why_now := blockWhyNow bucket situation
      tracks := tracks }

/-- The deterministic core of `buildBlocksWithArtwork` (the oEmbed batching is
external enrichment and cannot affect ids, order, titles or reasons). -/
def buildBlocksCore (bucket : TimeBucket) (tweak : Tweak) (engine : EngineMode)
    (seed : Nat) (situation : Situation) : List Block :=
  let plan := blockPlan bucket situation
  (pickBlocks tweak seed situation plan 0 [] []).map
    (fun x => finishBlock engine bucket situation x.1 x.2.1 x.2.2)

/-- The deterministic core of the `GET` handler's response. -/
structure MixCore where
  minutesUsed : Nat
  time_bucket : TimeBucket
  tweak : Tweak
  engine : EngineMode
  situation_used : Situation
  seedKey : String
  seed : Nat
  blocks : List Block
deriving Repr

/-- The `GET` handler's deterministic core: parameter normalization, time
resolution (`nowMinutes` stands for the Chicago wall clock, used only when the
`time` override is absent or malformed), seed-key construction, seed hashing,
and block building. `generated_at` / `local_time_display` are presentation
fields not modelled. -/
def getCore (timeParam : Option String) (tweakRaw engineRaw situationRaw : String)
    (nowMinutes : Nat) : MixCore :=
  let tweak := getTweak tweakRaw
  let engine := getEngine engineRaw
  let situation := getSituation situationRaw
  let override := parseTimeOverride timeParam
  let minutes :=
    match override with
    | some hm => hm.1 * 60 + hm.2
    | Option.none => nowMinutes
  let timeBucket := getTimeBucketFromMinutes minutes
  let seedKey :=
    bucketStr timeBucket ++ "|" ++ tweakStr tweak ++ "|" ++ engineStr engine ++ "|" ++
    situationStr situation ++ "|" ++
    (match override with
     | some hm => toString hm.1 ++ ":" ++ toString hm.2
     | Option.none => "now")
  let seed := stableHash seedKey
  { minutesUsed := minutes
    time_bucket := timeBucket
    tweak := tweak
    engine := engine
    situation_used := situation
    seedKey := seedKey
    seed := seed
    blocks := buildBlocksCore timeBucket tweak engine seed situation }

/-- Spec-side (§4.4 steps 1–2, claim C6): the item score as the stated sum —
`+6` on intent match, an extra `+1` for `discovery`, and the tweak adjustment. -/
def specItemScore (t : MockTrack) (intent : String) (tweak : Tweak) : ℚ :=
  (if intent ∈ t.tags then 6 else 0)
  + (if intent = "discovery" then 1 else 0)
  + (match tweak with
     | .more_new => if "throwback" ∈ t.tags then -2 else 2
     | .more_familiar => if "throwback" ∈ t.tags then 3 else 0
     | .no_repeats => 0
     | .none => 0)

/-- Spec-side (§4.4 step 3, claim C6): `0.5 × weight` summed over the item's
tags whose situation-bias weight is positive; negative weights contribute 0. -/
def specSituationBiasSum (t : MockTrack) (situation : Situation) : ℚ :=
  (t.tags.map (fun tag =>
    if 0 < situationBias situation tag then (0.5 : ℚ) * situationBias situation tag else 0)).sum

/-- Spec-side (claim C8): the fixed generic rotation of baseline block titles
inlined in `buildBlocksWithArtwork`. -/
def baselineTitleRotation : List String :=
  ["Made for You", "Daily Mix", "Vibes", "Recommended", "More Like This"]

/-- Every block title the engine can ever pass to the reason generator:
the titles of the four auto (time-bucket) plans and of the six situation
presets. -/
def allPlanTitles : List String :=
  (([TimeBucket.morning, .midday, .evening, .late_night].map
      (fun b => blockPlan b Situation.auto)).flatten.map (fun p => p.title))
  ++ (([Situation.working_out, .working, .studying, .dinner, .party, .chill].map
      (fun s => SITUATION_PRESETS s)).flatten.map (fun p => p.title))

/-- Claim C4's notion of a reason referencing an item's `hook_phrase`-derived
clause: the hook phrase occurs verbatim in the reason text. -/
def reasonCitesHook (reason : String) (hook : String) : Prop :=
  strIncludes reason hook = true

/-! ### Helper lemmas: the seeded shuffle is a permutation -/

/-- Extracting position `j` and writing `x` there is a permutation
of pushing `x` on front. -/
theorem cons_get_set_perm : ∀ (l : List α) (j : Nat) (hj : j < l.length) (x : α),
    List.Perm (l[j] :: l.set j x) (x :: l)
  | _ :: t, 0, _, x => by
    simpa using List.Perm.swap x _ t
  | a :: t, j + 1, hj, x => by
    have hj' : j < t.length := by simpa using Nat.lt_of_succ_lt_succ hj
    have s1 : List.Perm (t[j] :: a :: t.set j x) (a :: t[j] :: t.set j x) := List.Perm.swap a _ _
    have s2 : List.Perm (a :: t[j] :: t.set j x) (a :: x :: t) := (cons_get_set_perm t j hj' x).cons a
    have s3 : List.Perm (a :: x :: t) (x :: a :: t) := List.Perm.swap x a t
    simpa using (s1.trans s2).trans s3

/-- Swapping two positions of a list is a permutation. -/
theorem set_set_swap_perm : ∀ (l : List α) (i j : Nat) (hi : i < l.length) (hj : j < l.length),
    List.Perm ((l.set i l[j]).set j l[i]) l
  | a :: t, 0, 0, _, _ => by simp
  | a :: t, 0, j + 1, hi, hj => by
    have hj' : j < t.length := by simpa using Nat.lt_of_succ_lt_succ hj
    simpa using cons_get_set_perm t j hj' a
  | a :: t, i + 1, 0, hi, hj => by
    have hi' : i < t.length := by simpa using Nat.lt_of_succ_lt_succ hi
    simpa using cons_get_set_perm t i hi' a
  | a :: t, i + 1, j + 1, hi, hj => by
    have hi' : i < t.length := by simpa using Nat.lt_of_succ_lt_succ hi
    have hj' : j < t.length := by simpa using Nat.lt_of_succ_lt_succ hj
    simpa using (set_set_swap_perm t i j hi' hj').cons a

/-- `listSwap` is always a permutation. -/
theorem listSwap_perm (l : List α) (i j : Nat) : List.Perm (listSwap l i j) l := by
  unfold listSwap
  cases h1 : l[i]? with
  | none => exact List.Perm.refl l
  | some a =>
    cases h2 : l[j]? with
    | none => exact List.Perm.refl l
    | some b =>
      obtain ⟨hi, rfl⟩ := (List.getElem?_eq_some).1 h1
      obtain ⟨hj, rfl⟩ := (List.getElem?_eq_some).1 h2
      exact set_set_swap_perm l i j hi hj

/-- The Fisher–Yates loop only permutes its input. -/
theorem shuffleLoop_perm : ∀ (i : Nat) (l : List α) (x : Nat), List.Perm (shuffleLoop l x i) l
  | 0, l, x => List.Perm.refl l
  | i + 1, l, x => by
    unfold shuffleLoop
    exact (shuffleLoop_perm i _ _).trans (listSwap_perm l _ _)

/-- `seededShuffle` only permutes the catalog. -/
theorem seededShuffle_perm (l : List α) (seed : Nat) : List.Perm (seededShuffle l seed) l :=
  shuffleLoop_perm _ l _

/-! ### Helper lemmas: counting and the selection loops -/

/-- Splitting a list's length by a decidable predicate. -/
theorem filter_length_split (p : α → Prop) [DecidablePred p] (l : List α) :
    (l.filter (fun a => decide (p a))).length + (l.filter (fun a => decide (¬ p a))).length
      = l.length := by
  induction l with
  | nil => simp
  | cons a t ih =>
    by_cases h : p a <;> simp [h, ← ih] <;> omega

/-- If `l` maps injectively (no duplicate images), at most `s.length` of its
elements can have their image in the list `s`. -/
theorem filter_mem_length_le [DecidableEq β] (f : α → β) (s : List β) (l : List α)
    (h : (l.map f).Nodup) :
    (l.filter (fun a => decide (f a ∈ s))).length ≤ s.length := by
  have hsub : List.Sublist (l.filter (fun a => decide (f a ∈ s))) l := List.filter_sublist l
  have h1 : ((l.filter (fun a => decide (f a ∈ s))).map f).Nodup := h.sublist (hsub.map f)
  have h2 : (l.filter (fun a => decide (f a ∈ s))).map f ⊆ s := by
    intro x hx
    obtain ⟨a, ha, rfl⟩ := List.mem_map.1 hx
    exact of_decide_eq_true (List.mem_filter.1 ha).2
  have := (h1.subperm h2).length_le
  simpa using this

/-- The main loop never grows past 5 picks. -/
theorem pickLoop_length_le (tweak : Tweak) (l : List (MockTrack × ℚ))
    (picked : List MockTrack) (seen globalSeen : List String)
    (h : picked.length ≤ 5) :
    ((pickLoop tweak l picked seen globalSeen).1).length ≤ 5 := by
  induction l generalizing picked seen globalSeen with
  | nil => simpa [pickLoop] using h
  | cons item rest ih =>
    simp only [pickLoop]
    split_ifs with h1 h2
    · simpa using h
    · exact ih picked seen globalSeen h
    · exact ih (picked ++ [item.1]) _ _ (by simp; omega)

/-- Without `no_repeats`, the main loop takes the first items in order. -/
theorem pickLoop_eq_take (tweak : Tweak) (hne : tweak ≠ Tweak.no_repeats)
    (l : List (MockTrack × ℚ)) (picked : List MockTrack) (seen globalSeen : List String)
    (h : picked.length ≤ 5) :
    (pickLoop tweak l picked seen globalSeen).1
      = picked ++ (l.map Prod.fst).take (5 - picked.length) := by
  induction l generalizing picked seen globalSeen with
  | nil => simp [pickLoop]
  | cons item rest ih =>
    simp only [pickLoop]
    split_ifs with h1 h2
    · have : 5 - picked.length = 0 := by omega
      simp [this]
    · exact absurd h2.1 hne
    · have h5 : picked.length < 5 := by omega
      have hstep : 5 - picked.length = (5 - (picked ++ [item.1]).length) + 1 := by
        simp; omega
      rw [ih (picked ++ [item.1]) _ _ (by simp; omega), hstep]
      simp [List.take_succ_cons]

/-- With `no_repeats`, the main loop picks exactly `min 5 (already + unseen)`
items when the candidate ids are duplicate-free. -/
theorem pickLoop_norep_length (l : List (MockTrack × ℚ)) (picked : List MockTrack)
    (seen globalSeen : List String)
    (hnd : (l.map (fun x => x.1.id)).Nodup) (hp : picked.length ≤ 5) :
    ((pickLoop Tweak.no_repeats l picked seen globalSeen).1).length
      = min 5 (picked.length + (l.filter (fun x => decide (¬ x.1.id ∈ seen))).length) := by
  induction l generalizing picked seen globalSeen with
  | nil =>
    simp only [pickLoop, List.filter_nil, List.length_nil, Nat.add_zero]
    omega
  | cons item rest ih =>
    rw [List.map_cons] at hnd
    have hni : ¬ item.1.id ∈ rest.map (fun x => x.1.id) := (List.nodup_cons.1 hnd).1
    have hnd' : (rest.map (fun x => x.1.id)).Nodup := (List.nodup_cons.1 hnd).2
    simp only [pickLoop]
    split_ifs with h1 h2
    · have h5 : picked.length = 5 := le_antisymm hp h1
      rw [h5]
      omega
    · have hmem : decide (¬ item.1.id ∈ seen) = false := by simp [h2.2]
      rw [ih picked seen globalSeen hnd' hp]
      simp [List.filter_cons, hmem, h2.2]
    · have hmem : ¬ item.1.id ∈ seen := fun hc => h2 ⟨trivial, hc⟩
      have hcongr : rest.filter (fun x => decide (¬ x.1.id ∈ item.1.id :: seen))
          = rest.filter (fun x => decide (¬ x.1.id ∈ seen)) := by
        apply List.filter_congr
        intro x hx
        have hne : x.1.id ≠ item.1.id := by
          intro he
          exact hni (he ▸ List.mem_map_of_mem (fun y => y.1.id) hx)
        simp [List.mem_cons, hne]
      rw [ih (picked ++ [item.1]) (item.1.id :: seen) (item.1.id :: globalSeen) hnd'
          (by simp; omega), hcongr]
      have hmem' : decide (¬ item.1.id ∈ seen) = true := by simp [hmem]
      simp only [List.filter_cons, hmem']
      simp
      omega

/-- With `no_repeats`, the main loop records every pick in both sets, keeps
everything already in `seen`, picks only unseen items (beyond the initial
ones), and grows `seen` by exactly one id per new pick. -/
theorem pickLoop_norep_spec (l : List (MockTrack × ℚ)) (picked : List MockTrack)
    (seen globalSeen : List String)
    (hpseen : ∀ t ∈ picked, t.id ∈ seen) (hpgs : ∀ t ∈ picked, t.id ∈ globalSeen) :
    (∀ t ∈ (pickLoop Tweak.no_repeats l picked seen globalSeen).1,
        t.id ∈ (pickLoop Tweak.no_repeats l picked seen globalSeen).2.1 ∧
        t.id ∈ (pickLoop Tweak.no_repeats l picked seen globalSeen).2.2)
    ∧ (∀ x ∈ seen, x ∈ (pickLoop Tweak.no_repeats l picked seen globalSeen).2.1)
    ∧ (∀ t ∈ (pickLoop Tweak.no_repeats l picked seen globalSeen).1,
        t ∈ picked ∨ ¬ t.id ∈ seen)
    ∧ ((pickLoop Tweak.no_repeats l picked seen globalSeen).2.1).length + picked.length
        = seen.length + ((pickLoop Tweak.no_repeats l picked seen globalSeen).1).length := by
  induction l generalizing picked seen globalSeen with
  | nil =>
    refine ⟨fun t ht => ⟨hpseen t ht, hpgs t ht⟩, fun x hx => hx, fun t ht => Or.inl ht, ?_⟩
    simp [pickLoop]
  | cons item rest ih =>
    simp only [pickLoop]
    split_ifs with h1 h2
    · refine ⟨fun t ht => ⟨hpseen t ht, hpgs t ht⟩, fun x hx => hx, fun t ht => Or.inl ht, ?_⟩
      rfl
    · exact ih picked seen globalSeen hpseen hpgs
    · have hmem : ¬ item.1.id ∈ seen := fun hc => h2 ⟨trivial, hc⟩
      have hpseen' : ∀ t ∈ picked ++ [item.1], t.id ∈ item.1.id :: seen := by
        intro t ht
        rcases List.mem_append.1 ht with h | h
        · exact List.mem_cons_of_mem _ (hpseen t h)
        · simp at h
          simp [h]
      have hpgs' : ∀ t ∈ picked ++ [item.1], t.id ∈ item.1.id :: globalSeen := by
        intro t ht
        rcases List.mem_append.1 ht with h | h
        · exact List.mem_cons_of_mem _ (hpgs t h)
        · simp at h
          simp [h]
      obtain ⟨i1, i2, i3, i4⟩ := ih (picked ++ [item.1]) (item.1.id :: seen)
        (item.1.id :: globalSeen) hpseen' hpgs'
      refine ⟨i1, ?_, ?_, ?_⟩
      · intro x hx
        exact i2 x (List.mem_cons_of_mem _ hx)
      · intro t ht
        rcases i3 t ht with h | h
        · rcases List.mem_append.1 h with h' | h'
          · exact Or.inl h'
          · simp at h'
            subst h'
            exact Or.inr hmem
        · exact Or.inr (fun hc => h (List.mem_cons_of_mem _ hc))
      · simp only [List.length_append, List.length_cons, List.length_nil] at i4 ⊢
        omega

/-- With `no_repeats`, the main loop's output has duplicate-free ids. -/
theorem pickLoop_norep_nodup (l : List (MockTrack × ℚ)) (picked : List MockTrack)
    (seen globalSeen : List String)
    (hpseen : ∀ t ∈ picked, t.id ∈ seen) (hnd : (picked.map MockTrack.id).Nodup) :
    (((pickLoop Tweak.no_repeats l picked seen globalSeen).1).map MockTrack.id).Nodup := by
  induction l generalizing picked seen globalSeen with
  | nil => simpa [pickLoop] using hnd
  | cons item rest ih =>
    simp only [pickLoop]
    split_ifs with h1 h2
    · exact hnd
    · exact ih picked seen globalSeen hpseen hnd
    · have hmem : ¬ item.1.id ∈ seen := fun hc => h2 ⟨trivial, hc⟩
      have hnotin : ¬ item.1.id ∈ picked.map MockTrack.id := by
        intro hc
        obtain ⟨t, ht, he⟩ := List.mem_map.1 hc
        exact hmem (he ▸ hpseen t ht)
      have hpseen' : ∀ t ∈ picked ++ [item.1], t.id ∈ item.1.id :: seen := by
        intro t ht
        rcases List.mem_append.1 ht with h | h
        · exact List.mem_cons_of_mem _ (hpseen t h)
        · simp at h
          simp [h]
      refine ih (picked ++ [item.1]) _ _ hpseen' ?_
      simp [List.nodup_append, hnd, hnotin]

/-- Backfill reaches exactly 5 picks when enough fresh candidates remain. -/
theorem backfillLoop_length (l : List MockTrack) (picked : List MockTrack)
    (globalSeen : List String)
    (hnd : (l.map MockTrack.id).Nodup) (hp : picked.length ≤ 5)
    (hcount : 5 ≤ picked.length +
      (l.filter (fun t => decide (¬ t.id ∈ picked.map MockTrack.id))).length) :
    ((backfillLoop l picked globalSeen).1).length = 5 := by
  induction l generalizing picked globalSeen with
  | nil =>
    simp only [List.filter_nil, List.length_nil, Nat.add_zero] at hcount
    simpa [backfillLoop] using le_antisymm hp hcount
  | cons t rest ih =>
    rw [List.map_cons] at hnd
    have hni : ¬ t.id ∈ rest.map MockTrack.id := (List.nodup_cons.1 hnd).1
    have hnd' : (rest.map MockTrack.id).Nodup := (List.nodup_cons.1 hnd).2
    simp only [backfillLoop]
    split_ifs with h1 h2
    · exact le_antisymm hp h1
    · have hmem : decide (¬ t.id ∈ picked.map MockTrack.id) = false := by simp [h2]
      refine ih picked globalSeen hnd' hp ?_
      rw [List.filter_cons, hmem, if_neg (by simp)] at hcount
      exact hcount
    · have hcongr : rest.filter (fun u => decide (¬ u.id ∈ (picked ++ [t]).map MockTrack.id))
          = rest.filter (fun u => decide (¬ u.id ∈ picked.map MockTrack.id)) := by
        apply List.filter_congr
        intro u hu
        have hne : u.id ≠ t.id := by
          intro he
          exact hni (he ▸ List.mem_map_of_mem MockTrack.id hu)
        simp [List.mem_append, hne]
      refine ih (picked ++ [t]) _ hnd' (by simp; omega) ?_
      rw [hcongr]
      have hmem' : decide (¬ t.id ∈ picked.map MockTrack.id) = true := by simp [h2]
      rw [List.filter_cons, hmem', if_pos rfl] at hcount
      simp only [List.length_append, List.length_cons, List.length_nil] at hcount ⊢
      omega

/-- Backfill preserves duplicate-freedom of the picked ids. -/
theorem backfillLoop_nodup (l : List MockTrack) (picked : List MockTrack)
    (globalSeen : List String) (hnd : (picked.map MockTrack.id).Nodup) :
    (((backfillLoop l picked globalSeen).1).map MockTrack.id).Nodup := by
  induction l generalizing picked globalSeen with
  | nil => simpa [backfillLoop] using hnd
  | cons t rest ih =>
    simp only [backfillLoop]
    split_ifs with h1 h2
    · exact hnd
    · exact ih picked globalSeen hnd
    · refine ih (picked ++ [t]) _ ?_
      simp [List.nodup_append, hnd, h2]

/-! ### Facts about the catalog and the ordered candidate list -/

/-- The catalog's 24 ids are pairwise distinct. -/
theorem mock_ids_nodup : (MOCK_TRACKS.map MockTrack.id).Nodup := by decide

/-- The catalog's hook phrases are unique per item: equal hooks force equal ids. -/
theorem mock_hooks_inj : ∀ t1 ∈ MOCK_TRACKS, ∀ t2 ∈ MOCK_TRACKS,
    t1.profile.hook = t2.profile.hook → t1.id = t2.id := by decide

/-- The tracks underlying the `ordered` list are a permutation of the catalog. -/
theorem orderedFor_fst_perm (intent : String) (tweak : Tweak) (seed : Nat)
    (situation : Situation) (blockIndex : Nat) (globalSeen : List String) :
    List.Perm ((orderedFor intent tweak seed situation blockIndex globalSeen).map Prod.fst)
      MOCK_TRACKS := by
  unfold orderedFor
  have h1 := (List.mergeSort_perm
    ((seededShuffle MOCK_TRACKS seed).map
      (fun t => (t, trackSelectionScore t intent tweak situation blockIndex globalSeen)))
    (fun a b => decide (b.2 ≤ a.2))).map Prod.fst
  rw [List.map_map] at h1
  have h2 : (seededShuffle MOCK_TRACKS seed).map
      (Prod.fst ∘ fun t => (t, trackSelectionScore t intent tweak situation blockIndex globalSeen))
      = seededShuffle MOCK_TRACKS seed := by
    simp [Function.comp_def]
  rw [h2] at h1
  exact h1.trans (seededShuffle_perm MOCK_TRACKS seed)

/-- The ordered candidate list carries each catalog id exactly once. -/
theorem orderedFor_ids_nodup (intent : String) (tweak : Tweak) (seed : Nat)
    (situation : Situation) (blockIndex : Nat) (globalSeen : List String)
    (h : (MOCK_TRACKS.map MockTrack.id).Nodup) :
    ((orderedFor intent tweak seed situation blockIndex globalSeen).map
      (fun x => x.1.id)).Nodup := by
  have hp := (orderedFor_fst_perm intent tweak seed situation blockIndex globalSeen).map
    MockTrack.id
  rw [List.map_map] at hp
  exact hp.nodup_iff.mpr h

/-- The ordered candidate list has the catalog's length (24). -/
theorem orderedFor_length (intent : String) (tweak : Tweak) (seed : Nat)
    (situation : Situation) (blockIndex : Nat) (globalSeen : List String) :
    (orderedFor intent tweak seed situation blockIndex globalSeen).length
      = MOCK_TRACKS.length := by
  have := (orderedFor_fst_perm intent tweak seed situation blockIndex globalSeen).length_eq
  simpa using this

/-! ### Selector-level lemmas -/

/-- The selector always returns exactly 5 tracks (catalog has 24 ≥ 5 items),
for every tweak, seed, situation, block index and set state — the backfill
pass makes up any shortfall caused by the no-repeats skip. -/
theorem pickTracks_length_five (intent : String) (tweak : Tweak) (seed : Nat)
    (seen : List String) (situation : Situation) (blockIndex : Nat)
    (globalSeen : List String) (h : (MOCK_TRACKS.map MockTrack.id).Nodup) :
    ((pickTracksForIntent intent tweak seed seen situation blockIndex globalSeen).1).length
      = 5 := by
  have hnodO := orderedFor_ids_nodup intent tweak seed situation blockIndex globalSeen h
  have hlenO := orderedFor_length intent tweak seed situation blockIndex globalSeen
  have h24 : MOCK_TRACKS.length = 24 := rfl
  simp only [pickTracksForIntent]
  split_ifs with hlt
  · set O := orderedFor intent tweak seed situation blockIndex globalSeen with hO
    set r := pickLoop tweak O [] seen globalSeen with hrdef
    have hr5 : r.1.length ≤ 5 := pickLoop_length_le tweak O [] seen globalSeen (by simp)
    have hnd : ((O.map Prod.fst).map MockTrack.id).Nodup := by
      rw [List.map_map]
      exact hnodO
    have hcmem := filter_mem_length_le MockTrack.id (r.1.map MockTrack.id) (O.map Prod.fst) hnd
    have hsplit := filter_length_split (fun t => t.id ∈ r.1.map MockTrack.id) (O.map Prod.fst)
    have hlenl : (O.map Prod.fst).length = 24 := by
      rw [List.length_map, hO, hlenO, h24]
    refine backfillLoop_length (O.map Prod.fst) r.1 r.2.2 hnd hr5 ?_
    rw [List.length_map] at hcmem
    omega
  · have hr5 := pickLoop_length_le tweak
      (orderedFor intent tweak seed situation blockIndex globalSeen) [] seen globalSeen (by simp)
    omega

/-- With `no_repeats` and at least 5 catalog items outside `seen`, the main
loop alone fills the block: exactly 5 picks, all unseen, every pick recorded
in both sets, `seen` preserved and grown by exactly 5 ids. -/
theorem pickTracks_norep (intent : String) (seed : Nat) (seen : List String)
    (situation : Situation) (blockIndex : Nat) (globalSeen : List String)
    (h : (MOCK_TRACKS.map MockTrack.id).Nodup)
    (hroom : seen.length + 5 ≤ MOCK_TRACKS.length) :
    ((pickTracksForIntent intent Tweak.no_repeats seed seen situation blockIndex globalSeen).1).length = 5
    ∧ (∀ t ∈ (pickTracksForIntent intent Tweak.no_repeats seed seen situation blockIndex globalSeen).1,
        ¬ t.id ∈ seen)
    ∧ (∀ t ∈ (pickTracksForIntent intent Tweak.no_repeats seed seen situation blockIndex globalSeen).1,
        t.id ∈ (pickTracksForIntent intent Tweak.no_repeats seed seen situation blockIndex globalSeen).2.1 ∧
        t.id ∈ (pickTracksForIntent intent Tweak.no_repeats seed seen situation blockIndex globalSeen).2.2)
    ∧ (∀ x ∈ seen, x ∈ (pickTracksForIntent intent Tweak.no_repeats seed seen situation blockIndex globalSeen).2.1)
    ∧ ((pickTracksForIntent intent Tweak.no_repeats seed seen situation blockIndex globalSeen).2.1).length
        = seen.length + 5 := by
  have hnodO := orderedFor_ids_nodup intent Tweak.no_repeats seed situation blockIndex globalSeen h
  have hlenO := orderedFor_length intent Tweak.no_repeats seed situation blockIndex globalSeen
  have h24 : MOCK_TRACKS.length = 24 := rfl
  set O := orderedFor intent Tweak.no_repeats seed situation blockIndex globalSeen with hO
  have hnodO' : (O.map (fun x => x.1.id)).Nodup := hnodO
  -- at least 5 candidates are unseen
  have hcmem := filter_mem_length_le (fun x : MockTrack × ℚ => x.1.id) seen O hnodO'
  have hsplit := filter_length_split (fun x : MockTrack × ℚ => x.1.id ∈ seen) O
  have hlenl : O.length = 24 := by rw [hO, hlenO, h24]
  simp only [] at hcmem hsplit
  have hcount : 5 ≤ (O.filter (fun x => decide (¬ x.1.id ∈ seen))).length := by omega
  have hmain := pickLoop_norep_length O [] seen globalSeen hnodO' (by simp)
  have hmain5 : ((pickLoop Tweak.no_repeats O [] seen globalSeen).1).length = 5 := by
    rw [hmain]
    omega
  obtain ⟨i1, i2, i3, i4⟩ := pickLoop_norep_spec O [] seen globalSeen
    (by intro t ht; cases ht) (by intro t ht; cases ht)
  have hnobf : ¬ ((pickLoop Tweak.no_repeats O [] seen globalSeen).1).length < 5 := by omega
  have hres : pickTracksForIntent intent Tweak.no_repeats seed seen situation blockIndex globalSeen
      = pickLoop Tweak.no_repeats O [] seen globalSeen := by
    simp only [pickTracksForIntent]
    rw [if_neg]
    exact hnobf
  rw [hres]
  refine ⟨hmain5, ?_, i1, i2, ?_⟩
  · intro t ht
    rcases i3 t ht with hc | hc
    · cases hc
    · exact hc
  · simp only [List.length_nil, Nat.add_zero] at i4
    omega

/-- Within a single selector call, the returned tracks never repeat an id —
for every tweak and every state of the cross-block sets. -/
theorem pickTracks_nodup (intent : String) (tweak : Tweak) (seed : Nat)
    (seen : List String) (situation : Situation) (blockIndex : Nat)
    (globalSeen : List String) (h : (MOCK_TRACKS.map MockTrack.id).Nodup) :
    (((pickTracksForIntent intent tweak seed seen situation blockIndex globalSeen).1).map
      MockTrack.id).Nodup := by
  have hnodO := orderedFor_ids_nodup intent tweak seed situation blockIndex globalSeen h
  set O := orderedFor intent tweak seed situation blockIndex globalSeen with hO
  have hmainnd : (((pickLoop tweak O [] seen globalSeen).1).map MockTrack.id).Nodup := by
    by_cases hnr : tweak = Tweak.no_repeats
    · subst hnr
      exact pickLoop_norep_nodup O [] seen globalSeen (by intro t ht; cases ht) (by simp)
    · rw [pickLoop_eq_take tweak hnr O [] seen globalSeen (by simp)]
      have hsub : List.Sublist ((O.map Prod.fst).take (5 - List.length ([] : List MockTrack)))
          (O.map Prod.fst) := List.take_sublist _ _
      have : ((O.map Prod.fst).map MockTrack.id).Nodup := by
        rw [List.map_map]
        exact hnodO
      simpa using this.sublist (hsub.map MockTrack.id)
  simp only [pickTracksForIntent]
  split_ifs with hlt
  · exact backfillLoop_nodup (O.map Prod.fst) _ _ hmainnd
  · exact hmainnd

/-! ### Block-assembly lemmas -/

/-- `finishBlock` emits one output track per picked catalog item. -/
theorem finishBlock_tracks_length (engine : EngineMode) (bucket : TimeBucket)
    (situation : Situation) (p : BlockIntent) (idx : Nat) (picked : List MockTrack) :
    (finishBlock engine bucket situation p idx picked).tracks.length = picked.length := by
  unfold finishBlock
  split_ifs <;> simp

/-- `finishBlock` preserves the picked ids, in order. -/
theorem finishBlock_tracks_ids (engine : EngineMode) (bucket : TimeBucket)
    (situation : Situation) (p : BlockIntent) (idx : Nat) (picked : List MockTrack) :
    (finishBlock engine bucket situation p idx picked).tracks.map Track.id
      = picked.map MockTrack.id := by
  unfold finishBlock
  split_ifs <;> simp [List.map_map, Function.comp_def]

/-- Every block produced by `pickBlocks` holds exactly 5 picks. -/
theorem pickBlocks_length_five (tweak : Tweak) (seed : Nat) (situation : Situation)
    (h : (MOCK_TRACKS.map MockTrack.id).Nodup) :
    ∀ (plan : List BlockIntent) (idx : Nat) (seen globalSeen : List String),
    ∀ x ∈ pickBlocks tweak seed situation plan idx seen globalSeen, x.2.2.length = 5 := by
  intro plan
  induction plan with
  | nil => intro idx seen globalSeen x hx; cases hx
  | cons p rest ih =>
    intro idx seen globalSeen x hx
    simp only [pickBlocks] at hx
    rcases List.mem_cons.1 hx with hh | hh
    · subst hh
      exact pickTracks_length_five p.intent tweak (seed + idx * 101) seen situation idx
        globalSeen h
    · exact ih _ _ _ x hh

/-- Under `no_repeats`, with room for 5 fresh ids per remaining block, the
blocks produced by `pickBlocks` have pairwise disjoint track ids, all outside
the incoming `seen` set. -/
theorem pickBlocks_norep_disjoint (seed : Nat) (situation : Situation)
    (h : (MOCK_TRACKS.map MockTrack.id).Nodup) :
    ∀ (plan : List BlockIntent) (idx : Nat) (seen globalSeen : List String),
    seen.length + 5 * plan.length ≤ MOCK_TRACKS.length →
    (pickBlocks Tweak.no_repeats seed situation plan idx seen globalSeen).Pairwise
      (fun x y => ∀ i ∈ x.2.2.map MockTrack.id, ¬ i ∈ y.2.2.map MockTrack.id)
    ∧ ∀ x ∈ pickBlocks Tweak.no_repeats seed situation plan idx seen globalSeen,
        ∀ t ∈ x.2.2, ¬ t.id ∈ seen := by
  intro plan
  induction plan with
  | nil =>
    intro idx seen globalSeen _
    exact ⟨List.Pairwise.nil, by intro x hx; cases hx⟩
  | cons p rest ih =>
    intro idx seen globalSeen hroom
    have h24 : MOCK_TRACKS.length = 24 := rfl
    have hroom1 : seen.length + 5 ≤ MOCK_TRACKS.length := by
      simp only [List.length_cons] at hroom
      omega
    obtain ⟨L5, Lunseen, Lrec, Lkeep, Lgrow⟩ := pickTracks_norep p.intent (seed + idx * 101)
      seen situation idx globalSeen h hroom1
    have hroom2 : ((pickTracksForIntent p.intent Tweak.no_repeats (seed + idx * 101) seen
        situation idx globalSeen).2.1).length + 5 * rest.length ≤ MOCK_TRACKS.length := by
      rw [Lgrow]
      simp only [List.length_cons] at hroom
      omega
    obtain ⟨ihpw, ihout⟩ := ih (idx + 1)
      (pickTracksForIntent p.intent Tweak.no_repeats (seed + idx * 101) seen situation idx
        globalSeen).2.1
      (pickTracksForIntent p.intent Tweak.no_repeats (seed + idx * 101) seen situation idx
        globalSeen).2.2 hroom2
    simp only [pickBlocks]
    constructor
    · refine List.Pairwise.cons ?_ ihpw
      intro y hy i hi hiy
      obtain ⟨t, ht, rfl⟩ := List.mem_map.1 hi
      obtain ⟨t', ht', he⟩ := List.mem_map.1 hiy
      exact ihout y hy t' ht' (he ▸ (Lrec t ht).1)
    · intro x hx
      rcases List.mem_cons.1 hx with hh | hh
      · subst hh
        exact Lunseen
      · intro t ht hc
        exact ihout x hh t ht (Lkeep _ hc)

/-! ### Claim theorems -/

/-- C1 (determinism): with a fixed, well-formed `time` override and fixed
`tweak` / `engine` / `situation` parameters, the response blocks (ids, order,
titles, reasons) and the derived 32-bit seed do not depend on the wall clock:
two evaluations agree. The seed itself is a pure function of the seed-key
string: identical inputs always yield an identical seed. -/
theorem c1_determinism (tp : Option String) (tweakRaw engineRaw situationRaw : String)
    (hm : Nat × Nat) (h : parseTimeOverride tp = some hm) (n1 n2 : Nat) :
    (getCore tp tweakRaw engineRaw situationRaw n1).blocks
      = (getCore tp tweakRaw engineRaw situationRaw n2).blocks
    ∧ (getCore tp tweakRaw engineRaw situationRaw n1).seed
      = (getCore tp tweakRaw engineRaw situationRaw n2).seed
    ∧ ∀ s1 s2 : String, s1 = s2 → stableHash s1 = stableHash s2 := by
  refine ⟨?_, ?_, fun s1 s2 he => he ▸ rfl⟩ <;> simp only [getCore, h]

/-- C2 (cardinality): the catalog has at least 5 items, and then every block of
every response holds exactly 5 tracks — for every bucket, tweak (including
`no_repeats`), engine, seed and situation; the backfill pass guarantees the
count even when the no-repeats rule excludes candidates. -/
theorem c2_cardinality (bucket : TimeBucket) (tweak : Tweak) (engine : EngineMode)
    (seed : Nat) (situation : Situation) (h5 : 5 ≤ MOCK_TRACKS.length) :
    (buildBlocksCore bucket tweak engine seed situation).map (fun b => b.tracks.length)
      = List.replicate (blockPlan bucket situation).length 5 := by
  have h := mock_ids_nodup
  unfold buildBlocksCore
  suffices haux : ∀ (plan : List BlockIntent) (idx : Nat) (seen globalSeen : List String),
      ((pickBlocks tweak seed situation plan idx seen globalSeen).map
        (fun x => finishBlock engine bucket situation x.1 x.2.1 x.2.2)).map
        (fun b => b.tracks.length)
      = List.replicate plan.length 5 by
    exact haux (blockPlan bucket situation) 0 [] []
  intro plan
  induction plan with
  | nil => intro idx seen globalSeen; rfl
  | cons p rest ih =>
    intro idx seen globalSeen
    simp only [pickBlocks, List.map_cons, List.length_cons, List.replicate_succ]
    rw [finishBlock_tracks_length]
    rw [pickTracks_length_five p.intent tweak (seed + idx * 101) seen situation idx
      globalSeen h]
    rw [ih]

/-- C3 (no-repeats law): with `tweak = no_repeats` and a catalog of at least
5 × (block count) distinct items, no track id occurs in two different blocks
of the same response; moreover every chosen item's id is recorded in both the
shared `seen` set and the cross-block `globalSeen` set returned by the
selector (given room for a full unseen block, i.e. when no backfill occurs). -/
theorem c3_no_repeats_law (bucket : TimeBucket) (engine : EngineMode) (seed : Nat)
    (situation : Situation)
    (hsize : 5 * (blockPlan bucket situation).length ≤ MOCK_TRACKS.length) :
    (buildBlocksCore bucket Tweak.no_repeats engine seed situation).Pairwise
      (fun b1 b2 => ∀ x ∈ b1.tracks.map Track.id, ¬ x ∈ b2.tracks.map Track.id)
    ∧ ∀ (intent : String) (seed' blockIndex : Nat) (seen globalSeen : List String),
        seen.length + 5 ≤ MOCK_TRACKS.length →
        ∀ t ∈ (pickTracksForIntent intent Tweak.no_repeats seed' seen situation blockIndex
            globalSeen).1,
          t.id ∈ (pickTracksForIntent intent Tweak.no_repeats seed' seen situation blockIndex
            globalSeen).2.1 ∧
          t.id ∈ (pickTracksForIntent intent Tweak.no_repeats seed' seen situation blockIndex
            globalSeen).2.2 := by
  constructor
  · obtain ⟨hpw, _⟩ := pickBlocks_norep_disjoint seed situation mock_ids_nodup
      (blockPlan bucket situation) 0 [] [] (by simpa using hsize)
    unfold buildBlocksCore
    rw [List.pairwise_map]
    refine hpw.imp ?_
    intro a b hab
    rw [finishBlock_tracks_ids, finishBlock_tracks_ids]
    exact hab
  · intro intent seed' blockIndex seen globalSeen hroom
    obtain ⟨_, _, L, _, _⟩ := pickTracks_norep intent seed' seen situation blockIndex
      globalSeen mock_ids_nodup hroom
    exact L

/-- C4 (hook scarcity): the final engine's reason generator does not read the
`hook` field at all (every phrasing is hook-free), and within one block —
any duplicate-free selection of catalog items with at least two distinct hook
phrases — no two reasons can cite the same `hook_phrase`-derived clause,
because hook phrases are unique per catalog item. -/
theorem c4_hook_scarcity (title : String) (htitle : title ∈ allPlanTitles)
    (ts : List MockTrack) (hsub : ∀ t ∈ ts, t ∈ MOCK_TRACKS)
    (hnd : (ts.map MockTrack.id).Nodup)
    (htwo : 2 ≤ ((ts.map (fun t => t.profile.hook)).dedup).length) :
    (∀ (t : MockTrack) (h' : String),
      generateFeatureBasedReason { t with profile := { t.profile with hook := h' } } title
        = generateFeatureBasedReason t title)
    ∧ ts.Pairwise (fun t1 t2 =>
        ¬ (reasonCitesHook (generateFeatureBasedReason t1 title) t1.profile.hook ∧
           reasonCitesHook (generateFeatureBasedReason t2 title) t2.profile.hook ∧
           t1.profile.hook = t2.profile.hook)) := by
  constructor
  · intro t h'
    cases t with
    | mk id name artist tags profile => cases profile; rfl
  · have hids : ts.Pairwise (fun t1 t2 => t1.id ≠ t2.id) := by
      rw [List.Nodup, List.pairwise_map] at hnd
      exact hnd
    refine hids.imp_of_mem ?_
    intro t1 t2 h1 h2 hne hcon
    exact hne (mock_hooks_inj t1 (hsub t1 h1) t2 (hsub t2 h2) hcon.2.2)

/-- C5 (time buckets): for every minute of the day the bucket function follows
exactly the documented boundaries: morning [420,720), midday [720,1020),
evening [1020,1320), late_night [1320,1440) ∪ [0,420) (which includes the
deliberate [120,420) late-night classification). -/
theorem c5_time_buckets (m : Nat) (hm : m < 1440) :
    (getTimeBucketFromMinutes m = TimeBucket.morning ↔ 420 ≤ m ∧ m < 720)
    ∧ (getTimeBucketFromMinutes m = TimeBucket.midday ↔ 720 ≤ m ∧ m < 1020)
    ∧ (getTimeBucketFromMinutes m = TimeBucket.evening ↔ 1020 ≤ m ∧ m < 1320)
    ∧ (getTimeBucketFromMinutes m = TimeBucket.late_night ↔ 1320 ≤ m ∨ m < 420) := by
  simp only [getTimeBucketFromMinutes]
  split_ifs with h1 h2 h3 h4 <;> simp_all <;> omega

/-- Folding the situation-tag loop is the same as adding the spec's sum. -/
theorem situationTagBias_foldl_eq (situation : Situation) (tags : List String) (a : ℚ) :
    List.foldl (fun sc tag =>
      let intentBoost := situationBias situation tag
      if 0 < intentBoost then sc + intentBoost * 0.5 else sc) a tags
    = a + (tags.map (fun tag =>
        if 0 < situationBias situation tag then (0.5 : ℚ) * situationBias situation tag
        else 0)).sum := by
  induction tags generalizing a with
  | nil => simp
  | cons tag rest ih =>
    simp only [List.foldl_cons, List.map_cons, List.sum_cons]
    rw [ih]
    split_ifs with hb <;> ring

/-- C6 (scoring function): the code's base score is exactly the claimed sum
(+6 on intent match, +1 extra for discovery, the tweak adjustment), and the
situation loop adds exactly 0.5 × weight for each positively-weighted tag —
negative situation weights are never applied to item scoring. -/
theorem c6_scoring (t : MockTrack) (intent : String) (tweak : Tweak)
    (situation : Situation) :
    scoreTrack t intent tweak = specItemScore t intent tweak
    ∧ (∀ sc : ℚ, situationTagBias situation t sc = sc + specSituationBiasSum t situation)
    ∧ situationTagBias situation t (scoreTrack t intent tweak)
        = specItemScore t intent tweak + specSituationBiasSum t situation := by
  have hbase : scoreTrack t intent tweak = specItemScore t intent tweak := by
    cases tweak <;> simp only [scoreTrack, specItemScore] <;> split_ifs <;>
      first
        | ring1
        | contradiction
  have hbias : ∀ sc : ℚ, situationTagBias situation t sc
      = sc + specSituationBiasSum t situation := by
    intro sc
    exact situationTagBias_foldl_eq situation t.tags sc
  exact ⟨hbase, hbias, by rw [hbias, hbase]⟩

/-- C7 (situation override): for any non-auto situation the block planner
returns that situation's fixed preset list, ignoring the time bucket; in
particular `working_out` always yields the working_out preset intents. -/
theorem c7_situation_override (b b' : TimeBucket) (s : Situation)
    (h : s ≠ Situation.auto) :
    blockPlan b s = SITUATION_PRESETS s
    ∧ blockPlan b s = blockPlan b' s
    ∧ (blockPlan b Situation.working_out).map BlockIntent.intent
        = ["ramp", "energy", "throwback", "discovery", "reset"] := by
  refine ⟨?_, ?_, ?_⟩
  · simp [blockPlan, h]
  · simp [blockPlan, h]
  · rfl

/-- C8 (baseline mode): with `engine = spotify_ai` (the spec's "baseline"),
every track of every block carries an empty reason and every block title is
drawn from the fixed generic rotation — never the situational or time-based
plan titles. -/
theorem c8_baseline_mode (bucket : TimeBucket) (tweak : Tweak) (seed : Nat)
    (situation : Situation) :
    (buildBlocksCore bucket tweak EngineMode.spotify_ai seed situation).Forall
      (fun b => b.tracks.Forall (fun t => t.reason = "") ∧ b.title ∈ baselineTitleRotation) := by
  rw [List.forall_iff_forall_mem]
  intro b hb
  unfold buildBlocksCore at hb
  obtain ⟨x, hx, rfl⟩ := List.mem_map.1 hb
  constructor
  · rw [List.forall_iff_forall_mem]
    intro tr htr
    unfold finishBlock at htr
    rw [if_pos rfl] at htr
    obtain ⟨t, ht, rfl⟩ := List.mem_map.1 htr
    rfl
  · unfold finishBlock
    rw [if_pos rfl]
    simp only [baselineTitleRotation]
    split_ifs <;> simp

/-- The restricted resolution used by `getCore` agrees with the faithful
JavaScript semantics whenever the normalized token does not name an
`Object.prototype` member. -/
theorem getSituationJs_agrees (raw : String)
    (h : ¬ normalizeSituation raw ∈ objectProtoKeys) :
    getSituationJs raw = ResolvedSituation.situation (getSituation raw) := by
  unfold getSituationJs getSituation
  cases halias : situationAlias (normalizeSituation raw) with
  | none => simp [halias, h]
  | some s => simp [halias]

/-- C9 (code bug): the token `constructor` is not in the alias table, yet the
program does not normalize `situation=constructor` to `auto`:
`aliasMap["constructor"]` finds the inherited `Object.prototype.constructor`,
which is truthy, so the `|| "auto"` default never applies. The leaked value is
not the string `"auto"`, and `SITUATION_PRESETS[situation] || []` then yields
an empty block plan — a zero-block response — where the claim, the spec
(§4.1, §7) and the code's own `Record<string, Situation>` typing with its
`|| "auto"` default all intend the 4-block auto plan. -/
theorem c9_unrecognized_situation_not_normalized :
    situationAlias "constructor" = Option.none
    ∧ getSituationJs "constructor" = ResolvedSituation.protoLeak
    ∧ (∀ bucket : TimeBucket, blockPlanJs bucket (getSituationJs "constructor") = [])
    ∧ (blockPlanJs TimeBucket.morning (ResolvedSituation.situation Situation.auto)).length
        = 4 := by
  have h2 : getSituationJs "constructor" = ResolvedSituation.protoLeak := by decide
  refine ⟨by decide, h2, ?_, by decide⟩
  intro bucket
  rw [h2]
  rfl

/-- C10 (within-block distinctness): for every tweak, block index and state of
the cross-block sets, a single selector call never returns two tracks with the
same id — the backfill pass skips ids already chosen within the block, and the
catalog ids are pairwise distinct. -/
theorem c10_within_block_distinct (intent : String) (tweak : Tweak) (seed : Nat)
    (seen : List String) (situation : Situation) (blockIndex : Nat)
    (globalSeen : List String) (h : (MOCK_TRACKS.map MockTrack.id).Nodup) :
    (((pickTracksForIntent intent tweak seed seen situation blockIndex globalSeen).1).map
      MockTrack.id).Nodup :=
  pickTracks_nodup intent tweak seed seen situation blockIndex globalSeen h

/-! ### Witnesses -/

/-- Witness for C1 at `time=08:30` with default parameters: the blocks and the
seed are independent of the wall clock (here 100 vs 200 minutes). -/
theorem c1_determinism_witness :
    (getCore (some "08:30") "" "" "" 100).blocks = (getCore (some "08:30") "" "" "" 200).blocks
    ∧ (getCore (some "08:30") "" "" "" 100).seed = (getCore (some "08:30") "" "" "" 200).seed :=
  ⟨(c1_determinism (some "08:30") "" "" "" (8, 30) (by decide) 100 200).1,
   (c1_determinism (some "08:30") "" "" "" (8, 30) (by decide) 100 200).2.1⟩

/-- Witness for C2: a morning / no_repeats / auto response consists of blocks
of exactly 5 tracks each. -/
theorem c2_cardinality_witness :
    (buildBlocksCore TimeBucket.morning Tweak.no_repeats EngineMode.my_engine 0
      Situation.auto).map (fun b => b.tracks.length)
    = List.replicate (blockPlan TimeBucket.morning Situation.auto).length 5 :=
  c2_cardinality TimeBucket.morning Tweak.no_repeats EngineMode.my_engine 0 Situation.auto
    (by decide)

/-- Witness for C3: the auto plan has 4 blocks and 5 × 4 = 20 ≤ 24, so a
no_repeats response has pairwise disjoint blocks. -/
theorem c3_no_repeats_law_witness :
    (buildBlocksCore TimeBucket.morning Tweak.no_repeats EngineMode.my_engine 0
      Situation.auto).Pairwise
      (fun b1 b2 => ∀ x ∈ b1.tracks.map Track.id, ¬ x ∈ b2.tracks.map Track.id) :=
  (c3_no_repeats_law TimeBucket.morning EngineMode.my_engine 0 Situation.auto (by decide)).1

/-- Witness for C4 at the `working_out` preset title "Warm up" with the first
two catalog tracks (distinct ids, two distinct hook phrases). -/
theorem c4_hook_scarcity_witness :
    (MOCK_TRACKS.take 2).Pairwise (fun t1 t2 =>
      ¬ (reasonCitesHook (generateFeatureBasedReason t1 "Warm up") t1.profile.hook ∧
         reasonCitesHook (generateFeatureBasedReason t2 "Warm up") t2.profile.hook ∧
         t1.profile.hook = t2.profile.hook)) :=
  (c4_hook_scarcity "Warm up" (by decide) (MOCK_TRACKS.take 2) (by decide) (by decide)
    (by decide)).2

/-- Witness for C5: the four boundary minutes behave as documented. -/
theorem c5_time_buckets_witness :
    getTimeBucketFromMinutes 419 = TimeBucket.late_night
    ∧ getTimeBucketFromMinutes 420 = TimeBucket.morning
    ∧ getTimeBucketFromMinutes 719 = TimeBucket.morning
    ∧ getTimeBucketFromMinutes 720 = TimeBucket.midday :=
  ⟨((c5_time_buckets 419 (by decide)).2.2.2).mpr (by decide),
   ((c5_time_buckets 420 (by decide)).1).mpr (by decide),
   ((c5_time_buckets 719 (by decide)).1).mpr (by decide),
   ((c5_time_buckets 720 (by decide)).2.1).mpr (by decide)⟩

/-- Witness for C7: `working_out` yields its preset for morning and evening
alike, with the documented intent sequence. -/
theorem c7_situation_override_witness :
    blockPlan TimeBucket.morning Situation.working_out
      = SITUATION_PRESETS Situation.working_out
    ∧ blockPlan TimeBucket.morning Situation.working_out
      = blockPlan TimeBucket.evening Situation.working_out
    ∧ (blockPlan TimeBucket.morning Situation.working_out).map BlockIntent.intent
      = ["ramp", "energy", "throwback", "discovery", "reset"] :=
  c7_situation_override TimeBucket.morning TimeBucket.evening Situation.working_out (by decide)

/-- Witness for C10: a concrete selector call returns duplicate-free ids. -/
theorem c10_within_block_distinct_witness :
    (((pickTracksForIntent "energy" Tweak.none 0 [] Situation.auto 0 []).1).map
      MockTrack.id).Nodup :=
  c10_within_block_distinct "energy" Tweak.none 0 [] Situation.auto 0 [] (by decide)
